import Mathlib

/-!
Verification of the Spring Sparrow (SSFAP) booking net-income calculator.

The definitions below are a shallow embedding of the JavaScript source:

* `calculateBooking` embeds `calculateBooking` from
  `src/ssfap/src/components/BookingForm.jsx` (lines 77-157).
* `mkBookingData` embeds the record construction in `handleSubmit`
  (`BookingForm.jsx`, lines 178-203).
* `getCurrentMonth` embeds `getCurrentMonth` from
  `src/ssfap/src/services/firebase/firestoreService.js` (lines 246-251).
* `deleteAllBookings` is modelled from the spec (see its doc comment), as
  its definition is not among the provided sources.

Modelling conventions:

* JavaScript numbers coming from form text fields are modelled as exact
  rationals.  A raw numeric field is an `Option ℚ`: `none` models an empty
  or unparseable string (where `parseFloat` / `parseInt` returns NaN) and
  `some q` a string parsing to the finite value `q`.  The source always
  guards a parse with `|| 0`, embedded as `Option.getD _ 0`.
* A date field of the form (`<input type="date">`) is either empty or a
  valid calendar date; a present date is modelled by its epoch-millisecond
  timestamp (`new Date(s).getTime()`), an integer for date-input values.
* `Math.ceil` of a real quotient is `Int.ceil` of the rational quotient,
  `Math.floor` is `Int.floor`, and the JavaScript `%` operator on integers
  (remainder with the sign of the dividend) is `Int.tmod`.
-/

/-- Booking type tag: the string `'STR'` or `'MTR'` in the source. -/
inductive BookingType where
  | STR
  | MTR
deriving DecidableEq, Repr

/-- A raw numeric form field as read from a text input.  `none` models an
empty or unparseable string (`parseFloat` returns NaN); `some q` models a
string that parses to the finite decimal number `q`. -/
abbrev NumField := Option ℚ

/-- A raw integer form field (`parseInt` in the source). -/
abbrev IntField := Option ℤ

/-- Embeds `parseFloat(x) || 0`: an absent or unparseable field (NaN, which
is falsy) coerces to `0`; a parsed value is kept. -/
def parseFloatOr0 (f : NumField) : ℚ := f.getD 0

/-- Embeds `parseInt(x) || 0`. -/
def parseIntOr0 (f : IntField) : ℤ := f.getD 0

/-- The `formData` state object of `BookingForm.jsx` (lines 32-54),
restricted to the fields the calculator and submission logic read. -/
structure FormData where
  unitId : String
  checkIn : Option ℤ
  checkOut : Option ℤ
  platform : String
  grossPayout : NumField
  platformFee : NumField
  cleaningCost : NumField
  baseMonthlyRent : NumField
  moveOutCleaning : NumField
  securityDeposit : NumField
  damageProtection : NumField
  hasDamageProtection : Bool
  hasPets : Bool
  petCount : IntField
  petFeePerMonth : NumField
  petDeposit : NumField

/-- The `calculated` state object of `BookingForm.jsx` (lines 56-62). -/
structure Calculated where
  nights : ℤ
  months : ℤ
  days : ℤ
  displayText : String
  netIncome : ℚ
deriving DecidableEq, Repr

/-- Milliseconds per day, `1000 * 60 * 60 * 24` in the source. -/
def msPerDay : ℚ := 1000 * 60 * 60 * 24

/-- The derived day count of `calculateBooking`:
`Math.ceil((end - start) / (1000 * 60 * 60 * 24))` on epoch-millisecond
timestamps (`BookingForm.jsx`, lines 86-89). -/
def diffDaysOf (start stop : ℤ) : ℤ :=
  ⌈((stop - start : ℤ) : ℚ) / msPerDay⌉

/-- Shallow embedding of `calculateBooking` from `BookingForm.jsx`
(lines 77-157).  `start`/`stop` are the parsed `checkIn`/`checkOut`
timestamps; `none` models an empty date string (falsy in the guard on
line 80). -/
def calculateBooking (bookingType : BookingType) (formData : FormData) :
    Calculated :=
  match formData.checkIn, formData.checkOut with
  | none, _ =>
      { nights := 0, months := 0, days := 0, displayText := "", netIncome := 0 }
  | some _, none =>
      { nights := 0, months := 0, days := 0, displayText := "", netIncome := 0 }
  | some start, some stop =>
      let diffDays : ℤ := diffDaysOf start stop
      match bookingType with
      | .STR =>
          let displayText :=
            toString diffDays ++ " night" ++ (if diffDays ≠ 1 then "s" else "")
          let gross := parseFloatOr0 formData.grossPayout
          let fee := parseFloatOr0 formData.platformFee
          let cleaning := parseFloatOr0 formData.cleaningCost
          let netIncome := gross - fee - cleaning
          { nights := diffDays, months := 0, days := diffDays,
            displayText := displayText, netIncome := netIncome }
      | .MTR =>
          let months : ℤ := ⌊(diffDays : ℚ) / 30⌋
          let remainingDays : ℤ := Int.tmod diffDays 30
          let displayText :=
            if months > 0 ∧ remainingDays > 0 then
              toString months ++ " month" ++ (if months ≠ 1 then "s" else "")
                ++ ", " ++ toString remainingDays ++ " day"
                ++ (if remainingDays ≠ 1 then "s" else "")
            else if months > 0 then
              toString months ++ " month" ++ (if months ≠ 1 then "s" else "")
            else
              toString remainingDays ++ " day"
                ++ (if remainingDays ≠ 1 then "s" else "")
          let baseRent := parseFloatOr0 formData.baseMonthlyRent
          let totalMonths : ℚ := (diffDays : ℚ) / 30
          let totalRevenue := baseRent * totalMonths
          let totalRevenue :=
            if formData.hasDamageProtection then
              totalRevenue + parseFloatOr0 formData.damageProtection * totalMonths
            else totalRevenue
          let totalRevenue :=
            if formData.hasPets then
              totalRevenue
                + (parseFloatOr0 formData.petFeePerMonth
                    * (parseIntOr0 formData.petCount : ℚ) * totalMonths
                  + parseFloatOr0 formData.petDeposit)
            else totalRevenue
          let fee := parseFloatOr0 formData.platformFee
          let moveOutCleaning := parseFloatOr0 formData.moveOutCleaning
          let netIncome := totalRevenue - fee - moveOutCleaning
          { nights := 0, months := ⌊totalMonths⌋, days := diffDays,
            displayText := displayText, netIncome := netIncome }

/-- An all-empty form, used to instantiate witnesses. -/
def emptyForm : FormData :=
  { unitId := "robins-roost", checkIn := none, checkOut := none,
    platform := "Airbnb", grossPayout := none, platformFee := none,
    cleaningCost := none, baseMonthlyRent := none, moveOutCleaning := none,
    securityDeposit := none, damageProtection := none,
    hasDamageProtection := true, hasPets := false, petCount := none,
    petFeePerMonth := none, petDeposit := none }

/-- Replaces every absent or unparseable numeric field of the form by a field
that parses to `0`, the value the source's `|| 0` guards coerce it to.  Date
fields and toggles are unchanged. -/
def zeroFilled (fd : FormData) : FormData :=
  { fd with
    grossPayout := some (parseFloatOr0 fd.grossPayout)
    platformFee := some (parseFloatOr0 fd.platformFee)
    cleaningCost := some (parseFloatOr0 fd.cleaningCost)
    baseMonthlyRent := some (parseFloatOr0 fd.baseMonthlyRent)
    moveOutCleaning := some (parseFloatOr0 fd.moveOutCleaning)
    securityDeposit := some (parseFloatOr0 fd.securityDeposit)
    damageProtection := some (parseFloatOr0 fd.damageProtection)
    petCount := some (parseIntOr0 fd.petCount)
    petFeePerMonth := some (parseFloatOr0 fd.petFeePerMonth)
    petDeposit := some (parseFloatOr0 fd.petDeposit) }

/-- The MTR duration label as described by the spec: months and/or remaining
days, each pluralized, omitting whichever component is zero. -/
def specMtrLabel (months remainder : ℤ) : String :=
  if months > 0 then
    if remainder > 0 then
      toString months ++ " month" ++ (if months ≠ 1 then "s" else "")
        ++ ", " ++ toString remainder ++ " day"
        ++ (if remainder ≠ 1 then "s" else "")
    else
      toString months ++ " month" ++ (if months ≠ 1 then "s" else "")
  else if remainder > 0 then
    toString remainder ++ " day" ++ (if remainder ≠ 1 then "s" else "")
  else
    ""

/-- A wall-clock date as the submission handler sees it: the fields of the
JavaScript `Date` that `getCurrentMonth` reads. `monthIdx` is the 0-based
result of `getMonth()`. -/
structure JSDate where
  fullYear : ℕ
  monthIdx : ℕ

/-- Embeds `String.prototype.padStart(n, c)`. -/
def jsPadStart (s : String) (n : ℕ) (c : Char) : String :=
  String.mk (List.replicate (n - s.length) c) ++ s

/-- Shallow embedding of `getCurrentMonth` from `firestoreService.js`
(lines 246-251): the "YYYY-MM" key of the current wall-clock date. -/
def getCurrentMonth (now : JSDate) : String :=
  toString now.fullYear ++ "-"
    ++ jsPadStart (toString (now.monthIdx + 1)) 2 (Char.ofNat 48)

/-- The booking record assembled by `handleSubmit` (`BookingForm.jsx`,
lines 178-203).  In the source, the MTR-only fields are absent from an STR
record (conditional spread); here they are carried with their falsy
defaults, which does not affect the fields the claims are about. -/
structure BookingData where
  unitId : String
  type : BookingType
  checkIn : Option ℤ
  checkOut : Option ℤ
  nights : ℤ
  grossPayout : ℚ
  platform : String
  platformFee : ℚ
  cleaningCost : ℚ
  netIncome : ℚ
  month : String
  baseMonthlyRent : ℚ
  securityDeposit : ℚ
  damageProtection : ℚ
  hasPets : Bool
  petCount : ℤ
  petFeePerMonth : ℚ
  petDeposit : ℚ

/-- Shallow embedding of the `bookingData` construction in `handleSubmit`
(`BookingForm.jsx`, lines 178-203).  `now` is the wall-clock date at
submission time, read only by `getCurrentMonth()`. -/
def mkBookingData (bookingType : BookingType) (formData : FormData)
    (calculated : Calculated) (now : JSDate) : BookingData :=
  { unitId := formData.unitId
    type := bookingType
    checkIn := formData.checkIn
    checkOut := formData.checkOut
    nights := match bookingType with
      | .STR => calculated.nights
      | .MTR => calculated.days
    grossPayout := parseFloatOr0 formData.grossPayout
    platform := formData.platform
    platformFee := parseFloatOr0 formData.platformFee
    cleaningCost := match bookingType with
      | .STR => parseFloatOr0 formData.cleaningCost
      | .MTR => parseFloatOr0 formData.moveOutCleaning
    netIncome := calculated.netIncome
    month := getCurrentMonth now
    baseMonthlyRent := match bookingType with
      | .STR => 0
      | .MTR => parseFloatOr0 formData.baseMonthlyRent
    securityDeposit := match bookingType with
      | .STR => 0
      | .MTR => parseFloatOr0 formData.securityDeposit
    damageProtection := match bookingType with
      | .STR => 0
      | .MTR => if formData.hasDamageProtection
          then parseFloatOr0 formData.damageProtection else 0
    hasPets := match bookingType with
      | .STR => false
      | .MTR => formData.hasPets
    petCount := match bookingType with
      | .STR => 0
      | .MTR => if formData.hasPets then parseIntOr0 formData.petCount else 0
    petFeePerMonth := match bookingType with
      | .STR => 0
      | .MTR => if formData.hasPets then parseFloatOr0 formData.petFeePerMonth else 0
    petDeposit := match bookingType with
      | .STR => 0
      | .MTR => if formData.hasPets then parseFloatOr0 formData.petDeposit else 0 }

/-- Modelled from the spec: the external booking-store operation
`deleteAllBookings(accountId) → count of records deleted` (spec section 6).
The function is imported from the Firestore service by its callers
(`TestButton.jsx`), but its definition is not among the provided sources.
The store is modelled as a list of (account id, booking record) rows; the
operation removes every row of the given account and returns how many rows
it removed. -/
def deleteAllBookings (store : List (String × BookingData))
    (accountId : String) : List (String × BookingData) × ℕ :=
  ((store.filter fun r => r.1 != accountId),
    (store.filter fun r => r.1 == accountId).length)

/-- Claim C1: for every STR booking with both dates present, the calculator's
netIncome equals grossPayout − platformFee − cleaningCost exactly, for any
monetary inputs (in particular all non-negative ones), including when the
result is negative. -/
theorem str_netIncome_formula (fd : FormData) (start stop : ℤ) :
    (calculateBooking .STR
        { fd with checkIn := some start, checkOut := some stop }).netIncome
      = parseFloatOr0 fd.grossPayout - parseFloatOr0 fd.platformFee
        - parseFloatOr0 fd.cleaningCost := by
  cases fd
  rfl

/-- Claim C2: for every MTR booking with both dates present, no pets and
damage protection disabled, netIncome equals
baseMonthlyRent × (days/30) − platformFee − moveOutCleaning, where days is
the derived day count and days/30 is an exact (fractional, not floored)
rational quotient. -/
theorem mtr_netIncome_base_formula (fd : FormData) (start stop : ℤ) :
    (calculateBooking .MTR
        { fd with
          checkIn := some start
          checkOut := some stop
          hasPets := false
          hasDamageProtection := false }).netIncome
      = parseFloatOr0 fd.baseMonthlyRent * ((diffDaysOf start stop : ℚ) / 30)
        - parseFloatOr0 fd.platformFee
        - parseFloatOr0 fd.moveOutCleaning := by
  cases fd
  rfl

/-- Claim C4: whenever checkIn or checkOut is absent, the calculator yields
the defined incomplete-input state: duration label "", netIncome 0, and
nights, months, days all 0, for both booking types and any other fields. -/
theorem missing_date_yields_zero_state :
    (∀ (t : BookingType) (fd : FormData),
        calculateBooking t { fd with checkIn := none }
          = { nights := 0, months := 0, days := 0, displayText := "",
              netIncome := 0 })
    ∧ (∀ (t : BookingType) (fd : FormData),
        calculateBooking t { fd with checkOut := none }
          = { nights := 0, months := 0, days := 0, displayText := "",
              netIncome := 0 }) := by
  constructor <;> intro t fd <;> obtain ⟨u, ci, co, p, g, pf, cc, bm, mo,
    sd, dp, hdp, hp, pc, pfm, pd⟩ := fd
  · rfl
  · cases ci <;> rfl

/-- Claim C5: the calculator is a total function of its inputs: for any
combination of present/absent fields its netIncome is a well-defined finite
rational (never NaN), and every absent or unparseable numeric field behaves
exactly as the parseable value 0 (the `|| 0` coercion). -/
theorem calculator_never_nan_coerces_to_zero (t : BookingType)
    (fd : FormData) :
    (∃ q : ℚ, (calculateBooking t fd).netIncome = q)
    ∧ calculateBooking t fd = calculateBooking t (zeroFilled fd) := by
  refine ⟨⟨_, rfl⟩, ?_⟩
  obtain ⟨u, ci, co, p, g, pf, cc, bm, mo, sd, dp, hdp, hp, pc, pfm, pd⟩ := fd
  cases ci <;> cases co <;> cases t <;> rfl

/-- Claim C8: the security deposit is excluded from the computation: two runs
of the calculator on inputs differing only in the securityDeposit field
produce identical results (identical netIncome and identical duration), for
every booking type and every form state. -/
theorem securityDeposit_noninterference (t : BookingType) (fd : FormData)
    (sd : NumField) :
    calculateBooking t { fd with securityDeposit := sd }
      = calculateBooking t fd := by
  obtain ⟨u, ci, co, p, g, pf, cc, bm, mo, sd0, dp, hdp, hp, pc, pfm, pd⟩ := fd
  cases ci <;> cases co <;> cases t <;> rfl

/-- Claim C10: the stored month grouping key of every submitted booking is
the "YYYY-MM" of the submission's wall-clock date, and is unchanged under
any change of checkIn/checkOut: a booking entered in a different calendar
month than its stay is grouped under the entry month. -/
theorem booking_month_is_submission_month (t : BookingType) (fd : FormData)
    (c : Calculated) (now : JSDate) (ci co : Option ℤ) :
    ((mkBookingData t fd c now).month = getCurrentMonth now)
    ∧ (mkBookingData t { fd with checkIn := ci, checkOut := co } c now).month
        = (mkBookingData t fd c now).month :=
  ⟨rfl, rfl⟩

/-- Claim C3: for every MTR input with both dates present, enabling pets adds
petFeePerMonth × petCount × (days/30) + petDeposit to netIncome, and
disabling damage protection removes damageProtection × (days/30) from it,
all other inputs held equal. -/
theorem mtr_pet_and_damage_protection_deltas (fd : FormData)
    (start stop : ℤ) :
    ((calculateBooking .MTR
        { fd with checkIn := some start, checkOut := some stop,
                  hasPets := true }).netIncome
      = (calculateBooking .MTR
          { fd with checkIn := some start, checkOut := some stop,
                    hasPets := false }).netIncome
        + (parseFloatOr0 fd.petFeePerMonth * (parseIntOr0 fd.petCount : ℚ)
            * ((diffDaysOf start stop : ℚ) / 30)
          + parseFloatOr0 fd.petDeposit))
    ∧ ((calculateBooking .MTR
        { fd with checkIn := some start, checkOut := some stop,
                  hasDamageProtection := false }).netIncome
      = (calculateBooking .MTR
          { fd with checkIn := some start, checkOut := some stop,
                    hasDamageProtection := true }).netIncome
        - parseFloatOr0 fd.damageProtection
            * ((diffDaysOf start stop : ℚ) / 30)) := by
  obtain ⟨u, ci, co, p, g, pf, cc, bm, mo, sd, dp, hdp, hp, pc, pfm, pd⟩ := fd
  constructor
  · cases hdp <;> simp [calculateBooking] <;> ring
  · cases hp <;> simp [calculateBooking] <;> ring

/-- Claim C6: for every valid pair of dates with checkIn < checkOut, the STR
duration in nights equals the ceiling of the day difference, nights equals
days, and the duration label is "<days> night(s)", pluralized exactly when
days is not 1. -/
theorem str_duration_is_ceiling_of_day_diff (fd : FormData)
    (start stop : ℤ) (_h : start < stop) :
    ((calculateBooking .STR
        { fd with checkIn := some start, checkOut := some stop }).nights
      = ⌈((stop - start : ℤ) : ℚ) / msPerDay⌉)
    ∧ ((calculateBooking .STR
        { fd with checkIn := some start, checkOut := some stop }).nights
      = (calculateBooking .STR
          { fd with checkIn := some start, checkOut := some stop }).days)
    ∧ ((calculateBooking .STR
        { fd with checkIn := some start, checkOut := some stop }).displayText
      = toString (diffDaysOf start stop) ++ " night"
        ++ (if diffDaysOf start stop ≠ 1 then "s" else "")) := by
  obtain ⟨u, ci, co, p, g, pf, cc, bm, mo, sd, dp, hdp, hp, pc, pfm, pd⟩ := fd
  exact ⟨rfl, rfl, rfl⟩

/-- Witness for C6 at a concrete three-day stay. -/
theorem str_duration_is_ceiling_of_day_diff_witness :
    (0 : ℤ) < 259200000
    ∧ (((calculateBooking .STR
          { emptyForm with checkIn := some 0,
                           checkOut := some 259200000 }).nights
        = ⌈((259200000 - 0 : ℤ) : ℚ) / msPerDay⌉)
      ∧ ((calculateBooking .STR
          { emptyForm with checkIn := some 0,
                           checkOut := some 259200000 }).nights
        = (calculateBooking .STR
            { emptyForm with checkIn := some 0,
                             checkOut := some 259200000 }).days)
      ∧ ((calculateBooking .STR
          { emptyForm with checkIn := some 0,
                           checkOut := some 259200000 }).displayText
        = toString (diffDaysOf 0 259200000) ++ " night"
          ++ (if diffDaysOf 0 259200000 ≠ 1 then "s" else ""))) :=
  ⟨by decide,
    str_duration_is_ceiling_of_day_diff emptyForm 0 259200000 (by decide)⟩

/-- Claim C7: for every MTR booking with both dates present (and the data
model's invariant checkOut > checkIn), the duration label decomposes the day
count into months = floor(days/30) and remainder = days % 30, and renders
months and/or remaining days, each pluralized, omitting whichever component
is zero. -/
theorem mtr_duration_label_decomposition (fd : FormData)
    (start stop : ℤ) (h : start < stop) :
    (calculateBooking .MTR
        { fd with checkIn := some start, checkOut := some stop }).displayText
      = specMtrLabel ⌊(diffDaysOf start stop : ℚ) / 30⌋
          (Int.tmod (diffDaysOf start stop) 30) := by
  have hd : 1 ≤ diffDaysOf start stop := by
    have hpos : (0 : ℚ) < ((stop - start : ℤ) : ℚ) / msPerDay := by
      apply div_pos
      · exact_mod_cast sub_pos.mpr h
      · norm_num [msPerDay]
    have hceil := Int.ceil_pos.mpr hpos
    unfold diffDaysOf
    omega
  have hm : ⌊(diffDaysOf start stop : ℚ) / 30⌋ = diffDaysOf start stop / 30 := by
    rw [show ((30 : ℚ)) = ((30 : ℕ) : ℚ) by norm_num,
      Rat.floor_intCast_div_natCast]
    norm_num
  have hr : Int.tmod (diffDaysOf start stop) 30 = diffDaysOf start stop % 30 := by
    rw [Int.tmod_eq_emod (by omega) (by norm_num)]
  obtain ⟨u, ci, co, p, g, pf, cc, bm, mo, sd, dp, hdp, hp, pc, pfm, pd⟩ := fd
  simp only [calculateBooking, specMtrLabel, hm, hr]
  split_ifs <;> first | rfl | omega

/-- Witness for C7 at a concrete 65-day stay (2 months, 5 days). -/
theorem mtr_duration_label_decomposition_witness :
    (0 : ℤ) < 5616000000
    ∧ (calculateBooking .MTR
        { emptyForm with checkIn := some 0,
                         checkOut := some 5616000000 }).displayText
      = specMtrLabel ⌊(diffDaysOf 0 5616000000 : ℚ) / 30⌋
          (Int.tmod (diffDaysOf 0 5616000000) 30) :=
  ⟨by decide,
    mtr_duration_label_decomposition emptyForm 0 5616000000 (by decide)⟩

/-- Helper for C9: after filtering out an account's rows, no row of that
account remains. -/
theorem filter_beq_filter_bne_eq_nil (accountId : String)
    (l : List (String × BookingData)) :
    (l.filter fun r => r.1 != accountId).filter
        (fun r => r.1 == accountId) = [] := by
  induction l with
  | nil => rfl
  | cons hd tl ih =>
    by_cases hcase : hd.1 = accountId <;>
      simp [List.filter_cons, hcase, ih]

/-- Claim C9: the booking store's deleteAllBookings(accountId) deletes all of
the account's booking records (and only those) and returns the count of
records deleted. -/
theorem deleteAllBookings_deletes_all_and_returns_count
    (store : List (String × BookingData)) (accountId : String) :
    ((deleteAllBookings store accountId).1.filter
        (fun r => r.1 == accountId) = [])
    ∧ ((deleteAllBookings store accountId).1
        = store.filter (fun r => r.1 != accountId))
    ∧ ((deleteAllBookings store accountId).2
        = (store.filter (fun r => r.1 == accountId)).length) :=
  ⟨filter_beq_filter_bne_eq_nil accountId store, rfl, rfl⟩

/-- Sanity check: the spec's STR worked example.  Check-in to check-out is
three days (in epoch milliseconds), gross 450, platform fee 67.50, cleaning
150; the calculator reports 3 nights and net income 232.50. -/
theorem strWorkedExample :
    calculateBooking .STR
        { emptyForm with
          checkIn := some 0
          checkOut := some 259200000
          grossPayout := some 450
          platformFee := some (135 / 2)
          cleaningCost := some 150 }
      = { nights := 3, months := 0, days := 3, displayText := "3 nights",
          netIncome := 465 / 2 } := by
  have hd : diffDaysOf 0 259200000 = 3 := by
    unfold diffDaysOf msPerDay
    norm_num
  simp only [calculateBooking, hd, emptyForm, parseFloatOr0, Option.getD]
  norm_num
  decide

/-- Sanity check: the spec's MTR worked example.  A 30-day stay, base rent
2000, damage protection 80 enabled, no pets, platform fee 240, move-out
cleaning 350; the calculator reports "1 month" and net income 1490. -/
theorem mtrWorkedExample :
    calculateBooking .MTR
        { emptyForm with
          checkIn := some 0
          checkOut := some 2592000000
          baseMonthlyRent := some 2000
          platformFee := some 240
          moveOutCleaning := some 350
          damageProtection := some 80
          hasDamageProtection := true }
      = { nights := 0, months := 1, days := 30, displayText := "1 month",
          netIncome := 1490 } := by
  have hd : diffDaysOf 0 2592000000 = 30 := by
    unfold diffDaysOf msPerDay
    norm_num
  simp only [calculateBooking, hd, emptyForm, parseFloatOr0, Option.getD]
  norm_num
  decide
